import Mathlib

/-!
# Publish path of the MQTT load-testing extension

Shallow embedding of `publish.go` (and the metric handles of `stats.go`).

Go code with side effects is embedded as a function that returns how the call
ended (the value of its `return` statement, or the error it raised with
`common.Throw`) together with the ordered list of the effects it performed
(`Effect`).  The collaborators the code talks to (the protocol
client, the completion token, the virtual user, the clock) are records whose
fields are the answers those collaborators give.  The closures handed to the
callback slot are defunctionalised (`CallbackJob`) and executed by `runJob`.
-/

namespace Mqtt

/-! ## Machine integers -/

/-- Largest value of Go's `int64`. -/
def maxInt64 : Int := 2 ^ 63 - 1

/-- Two's-complement wrap of a mathematical integer into the `int64` range. -/
def wrapInt64 (x : Int) : Int := (x + 2 ^ 63) % 2 ^ 64 - 2 ^ 63

/-- Go's `time.Millisecond`, in nanoseconds. -/
def Millisecond : Int := 1000000

/-- Go's `time.Duration(a) * b`: a product of two `int64` values, wrapping. -/
def durationMul (a b : Int) : Int := wrapInt64 (a * b)

/-- Go's conversion `byte(n)` of an `int`: truncation to the low eight bits. -/
def byte (n : Int) : Nat := (n % 256).toNat

/-- Go's `float64(n)` of an integer value, kept symbolic: the sample value is
recorded as the integer that the source converts. -/
inductive float64 where
  | ofInt (n : Int)
  deriving DecidableEq, Repr

/-! ## Errors and events -/

/-- Modelled from the spec: the package's error values (`ErrClient`,
`ErrTimeoutToLong`, `ErrTimeout`, `ErrPublish`, `ErrState`) are declared
outside the two files; they are taken as pairwise distinct values
(NotConnected, TimeoutValueInvalid, Timeout, ProtocolError, StateUnavailable).
`other` is an error returned by a user-supplied handler (HandlerError). -/
inductive Err where
  | ErrClient
  | ErrTimeoutToLong
  | ErrTimeout
  | ErrPublish
  | ErrState
  | other (msg : String)
  deriving DecidableEq, Repr

/-- Modelled from the spec: `safeUintToInt64` is declared outside the two
files; it converts an unsigned value to `int64` and fails when the value
exceeds the largest `int64`.  `none` stands for a non-nil error. -/
def safeUintToInt64 (v : Nat) : Option Int :=
  if (v : Int) > maxInt64 then none else some (v : Int)

/-- One data property of a script object, with the three flags given to
`DefineDataProperty`. -/
structure DataProperty where
  name : String
  value : String
  writable : Bool
  configurable : Bool
  enumerable : Bool
  deriving DecidableEq, Repr

/-- The value handed to a handler: the object built by `newPublishEvent`, or
the error event built by `newErrorEvent`. -/
inductive Event where
  | object (props : List DataProperty)
  | error (reason : String)
  deriving DecidableEq, Repr

/-- The reason string carried by an error event. -/
def Event.reason : Event → Option String
  | .object _ => none
  | .error r => some r

/-- Modelled from the spec: `newErrorEvent` is declared outside the two files;
a failure is an event carrying a human-readable reason string. -/
def newErrorEvent (msg : String) : Event := Event.error msg

/-- `newPublishEvent` (publish.go 167-179): a fresh object with the properties
`type = "publish"` and `topic`, both non-writable, non-configurable and
enumerable.  Defining a property on a fresh object does not fail, so `must`
never throws. -/
def newPublishEvent (topic : String) : Event :=
  Event.object
    [ ⟨"type", "publish", false, false, true⟩,
      ⟨"topic", topic, false, false, true⟩ ]

/-- A user-supplied handler `func(sobek.Value) (sobek.Value, error)`; only its
error result is used by the code. -/
abbrev Handler := Event → Option Err

/-! ## Metrics (stats.go) -/

/-- The two metric types used by `registerMetrics`. -/
inductive MetricType where
  | Counter
  | Gauge
  deriving DecidableEq, Repr

/-- A registered metric handle. -/
structure Metric where
  Name : String
  Kind : MetricType
  deriving DecidableEq, Repr

/-- A tag set of the metrics registry. -/
structure TagSet where
  tags : List (String × String)
  deriving DecidableEq, Repr

/-- Go's `metrics.TagsAndMeta`, reduced to the field the code reads. -/
structure TagsAndMeta where
  Tags : TagSet
  deriving DecidableEq, Repr

/-- `mqttMetrics` (stats.go 10-17). -/
structure mqttMetrics where
  SentBytes : Metric
  ReceivedBytes : Metric
  SentMessages : Metric
  ReceivedMessages : Metric
  SentDates : Metric
  TagsAndMeta : TagsAndMeta
  deriving DecidableEq, Repr

/-- A reading of the wall clock (`time.Time`): seconds since the epoch and the
nanoseconds within the second. -/
structure Time where
  sec : Int
  nsec : Nat
  deriving DecidableEq, Repr

/-- Go's `Time.UnixMilli`: `sec * 1e3 + nsec / 1e6` in `int64`. -/
def Time.UnixMilli (t : Time) : Int := wrapInt64 (t.sec * 1000 + (t.nsec : Int) / 1000000)

/-- Go's `metrics.TimeSeries`. -/
structure TimeSeries where
  Metric : Metric
  Tags : TagSet
  deriving DecidableEq, Repr

/-- Go's `metrics.Sample`. -/
structure Sample where
  TimeSeries : TimeSeries
  Time : Time
  Value : float64
  deriving DecidableEq, Repr

/-! ## Collaborators -/

/-- The completion token returned by the protocol client: the answer of
`WaitTimeout` for each duration (nanoseconds) and the answer of `Error`
(`none` is nil, `some m` an error whose message is `m`). -/
structure Token where
  WaitTimeout : Int → Bool
  Error : Option String

/-- The protocol client: the answer of `IsConnected` and the token that
`Publish` returns for each request. -/
structure PahoClient where
  IsConnected : Bool
  Publish : String → Nat → Bool → String → Token

/-- The execution state of the virtual user (`lib.State`); its `Samples`
channel is the sample stream. -/
structure State where
  vuID : Nat
  deriving DecidableEq, Repr

/-- The cancellation context: `Err k` tells whether `ctx.Err()` is non-nil at
the `k`-th check made during one emission. -/
structure Context where
  Err : Nat → Bool

/-- The virtual user (`modules.VU`): the answers of `State()` and
`Context()`. -/
structure VU where
  State : Option State
  Context : Option Context

/-- The `client` receiver, reduced to the fields the publish path reads. -/
structure client where
  pahoClient : Option PahoClient
  vu : VU
  metrics : mqttMetrics

/-! ## Effects -/

/-- The four closures that `Publish` hands to the callback slot
(publish.go 40-48, 53-62, 66-74, 77-89).  `tokenError` captures the message of
the token's error. -/
inductive CallbackJob where
  | notConnected
  | timeout
  | tokenError (msg : String)
  | success
  deriving DecidableEq, Repr

/-- The observable effects of the publish path, in the order performed:
`throw e` is `common.Throw(rt, e)`, the error raised into the script runtime
(the call that makes it ends there, see `Exit`);
`publish` and `waitTimeout` are the calls on the protocol client and on the
token; `registerCallback` is `c.vu.RegisterCallback()`; `goStart` the `go`
statement; `callback j` the call of the registered slot with closure `j`;
`pushSample` a send on `state.Samples`; `callSuccess` and `callFailure` the
calls of the user's handlers. -/
inductive Effect where
  | throw (e : Err)
  | publish (topic : String) (qos : Nat) (retain : Bool) (payload : String)
  | waitTimeout (d : Int)
  | registerCallback
  | goStart
  | callback (job : CallbackJob)
  | pushSample (s : Sample)
  | callSuccess (ev : Event)
  | callFailure (ev : Event)
  deriving DecidableEq, Repr

/-- The result of a call that always returns: the returned error (`none` is
nil) and the effects performed. -/
structure Res where
  ret : Option Err
  trace : List Effect
  deriving DecidableEq, Repr

/-- How a call that may raise ends.  `returned err`: the call returned the
error value `err` (`none` is nil).  `raised e`: `common.Throw(rt, e)` was
called; `common.Throw` is library code that panics with the error, so the call
unwinds there, returns no value, and the `return` statement the source writes
after it is never reached. -/
inductive Exit where
  | returned (err : Option Err)
  | raised (e : Err)
  deriving DecidableEq, Repr

/-- The result of `publishSync`: how the call ended and the effects
performed. -/
structure SyncResult where
  exit : Exit
  trace : List Effect
  deriving DecidableEq, Repr

/-- The result of `Publish`: how the call ended, the effects performed on the
calling thread before the call ends, and the effects performed by the
goroutine the call started (empty when none was started). -/
structure PublishResult where
  exit : Exit
  trace : List Effect
  background : List Effect
  deriving DecidableEq, Repr

/-! ## The code -/

/-- Library function `metrics.PushIfNotDone`: sends the sample on the channel
unless the context is already done; `k` numbers the check. -/
def PushIfNotDone (ctx : Context) (k : Nat) (s : Sample) : List Effect :=
  if ctx.Err k then [] else [Effect.pushSample s]

/-- `client.publishMessageMetric` (publish.go 136-164); `now` is the answer of
`time.Now()`. -/
def publishMessageMetric (c : client) (now : Time) (msgLen : float64) : Res :=
  match c.vu.State with
  | none => ⟨some Err.ErrState, []⟩
  | some _ =>
    match c.vu.Context with
    | none => ⟨some Err.ErrState, []⟩
    | some ctx =>
      ⟨none,
        PushIfNotDone ctx 0
          ⟨⟨c.metrics.SentMessages, c.metrics.TagsAndMeta.Tags⟩, now, float64.ofInt 1⟩ ++
        PushIfNotDone ctx 1
          ⟨⟨c.metrics.SentBytes, c.metrics.TagsAndMeta.Tags⟩, now, msgLen⟩ ++
        PushIfNotDone ctx 2
          ⟨⟨c.metrics.SentDates, c.metrics.TagsAndMeta.Tags⟩, now, float64.ofInt now.UnixMilli⟩⟩

/-- Go's `len(message)`: the number of bytes of the string. -/
def len (message : String) : Int := (message.utf8ByteSize : Int)

/-- `client.publishSync` (publish.go 94-134).  Each `common.Throw` is recorded
as the effect `throw` and ends the call with `Exit.raised`: the call panics
there and the `return ErrX` written on the next line is dead code.  Only the
two exits of lines 129-133 return a value. -/
def publishSync (c : client) (now : Time) (topic : String) (qos : Int) (message : String)
    (retain : Bool) (timeout : Nat) : SyncResult :=
  match c.pahoClient with
  | none => ⟨Exit.raised Err.ErrClient, [Effect.throw Err.ErrClient]⟩
  | some paho =>
    if !paho.IsConnected then
      ⟨Exit.raised Err.ErrClient, [Effect.throw Err.ErrClient]⟩
    else
      match safeUintToInt64 timeout with
      | none => ⟨Exit.raised Err.ErrTimeoutToLong, [Effect.throw Err.ErrTimeoutToLong]⟩
      | some timeoutValue =>
        let token := paho.Publish topic (byte qos) retain message
        let d := durationMul timeoutValue Millisecond
        let net := [Effect.publish topic (byte qos) retain message, Effect.waitTimeout d]
        if !token.WaitTimeout d then
          ⟨Exit.raised Err.ErrTimeout, net ++ [Effect.throw Err.ErrTimeout]⟩
        else
          match token.Error with
          | some _ => ⟨Exit.raised Err.ErrPublish, net ++ [Effect.throw Err.ErrPublish]⟩
          | none =>
            let m := publishMessageMetric c now (float64.ofInt (len message))
            match m.ret with
            | some err => ⟨Exit.returned (some err), net ++ m.trace⟩
            | none => ⟨Exit.returned none, net ++ m.trace⟩

/-- The body of the goroutine started by `Publish` (publish.go 38-90): every
path ends by handing one closure to `callback`. -/
def publishGoroutine (c : client) (topic : String) (qos : Int) (message : String)
    (retain : Bool) (timeoutValue : Int) : List Effect :=
  match c.pahoClient with
  | none => [Effect.callback CallbackJob.notConnected]
  | some paho =>
    if !paho.IsConnected then
      [Effect.callback CallbackJob.notConnected]
    else
      let token := paho.Publish topic (byte qos) retain message
      let d := durationMul timeoutValue Millisecond
      let net := [Effect.publish topic (byte qos) retain message, Effect.waitTimeout d]
      if !token.WaitTimeout d then
        net ++ [Effect.callback CallbackJob.timeout]
      else
        match token.Error with
        | some msg => net ++ [Effect.callback (CallbackJob.tokenError msg)]
        | none => net ++ [Effect.callback CallbackJob.success]

/-- The common body of the three failure closures: build the error event and
call the failure handler when one was supplied. -/
def runFailure (failure : Option Handler) (reason : String) : Res :=
  let ev := newErrorEvent reason
  match failure with
  | none => ⟨none, []⟩
  | some h => ⟨h ev, [Effect.callFailure ev]⟩

/-- Execution, on the owning thread, of a closure handed to the callback slot
(publish.go 40-48, 53-62, 66-74, 77-89). -/
def runJob (c : client) (now : Time) (topic : String) (message : String)
    (success failure : Option Handler) : CallbackJob → Res
  | .notConnected => runFailure failure "publish not connected"
  | .timeout => runFailure failure "publish timeout"
  | .tokenError msg => runFailure failure msg
  | .success =>
    let m := publishMessageMetric c now (float64.ofInt (len message))
    match m.ret with
    | some err => ⟨some err, m.trace⟩
    | none =>
      let ev := newPublishEvent topic
      match success with
      | none => ⟨none, m.trace⟩
      | some h => ⟨h ev, m.trace ++ [Effect.callSuccess ev]⟩

/-- `client.Publish` (publish.go 14-92).  With no handler the call is
`publishSync` and ends as it does.  Otherwise a timeout the guard rejects ends
the call in `common.Throw` (line 32; the `return` of line 33 is dead code), and
an accepted one registers the slot, starts the goroutine and returns nil. -/
def Publish (c : client) (now : Time) (topic : String) (qos : Int) (message : String)
    (retain : Bool) (timeout : Nat) (success failure : Option Handler) : PublishResult :=
  if success.isNone && failure.isNone then
    let r := publishSync c now topic qos message retain timeout
    ⟨r.exit, r.trace, []⟩
  else
    match safeUintToInt64 timeout with
    | none => ⟨Exit.raised Err.ErrTimeoutToLong, [Effect.throw Err.ErrTimeoutToLong], []⟩
    | some timeoutValue =>
      ⟨Exit.returned none, [Effect.registerCallback, Effect.goStart],
        publishGoroutine c topic qos message retain timeoutValue⟩

/-! ## Observations on traces -/

/-- The error raised by an effect, when the effect is a `common.Throw`. -/
def Effect.asThrow : Effect → Option Err
  | .throw e => some e
  | _ => none

/-- The closure handed to the callback slot by an effect. -/
def Effect.asJob : Effect → Option CallbackJob
  | .callback j => some j
  | _ => none

/-- The sample sent on the sample stream by an effect. -/
def Effect.asSample : Effect → Option Sample
  | .pushSample s => some s
  | _ => none

/-- The event passed to the success handler by an effect. -/
def Effect.asSuccessCall : Effect → Option Event
  | .callSuccess ev => some ev
  | _ => none

/-- The event passed to the failure handler by an effect. -/
def Effect.asFailureCall : Effect → Option Event
  | .callFailure ev => some ev
  | _ => none

/-- Whether an effect is a call of the transport's publish operation. -/
def Effect.isPublish : Effect → Bool
  | .publish _ _ _ _ => true
  | _ => false

/-- Whether an effect is a network operation: a transport publish or a wait
on the completion token. -/
def Effect.isNetwork : Effect → Bool
  | .publish _ _ _ _ => true
  | .waitTimeout _ => true
  | _ => false

/-- Whether an effect is the registration of a callback slot. -/
def Effect.isRegister : Effect → Bool
  | .registerCallback => true
  | _ => false

/-- Whether an effect is the start of a goroutine. -/
def Effect.isGo : Effect → Bool
  | .goStart => true
  | _ => false

/-- The durations passed to the token wait, in order. -/
def Effect.asWait : Effect → Option Int
  | .waitTimeout d => some d
  | _ => none

/-- The errors raised into the runtime, in order. -/
def thrown (tr : List Effect) : List Err := tr.filterMap Effect.asThrow

/-- The closures handed to the callback slot, in order. -/
def jobs (tr : List Effect) : List CallbackJob := tr.filterMap Effect.asJob

/-- The samples appended to the sample stream, in order. -/
def samples (tr : List Effect) : List Sample := tr.filterMap Effect.asSample

/-- The events passed to the success handler, in order. -/
def successCalls (tr : List Effect) : List Event := tr.filterMap Effect.asSuccessCall

/-- The events passed to the failure handler, in order. -/
def failureCalls (tr : List Effect) : List Event := tr.filterMap Effect.asFailureCall

/-- The durations passed to the token wait, in order. -/
def waits (tr : List Effect) : List Int := tr.filterMap Effect.asWait

/-- The number of calls of the transport's publish operation. -/
def publishCalls (tr : List Effect) : Nat := (tr.filter Effect.isPublish).length

/-- The network operations performed, in order. -/
def networkOps (tr : List Effect) : List Effect := tr.filter Effect.isNetwork

/-- The number of callback slots registered. -/
def registered (tr : List Effect) : Nat := (tr.filter Effect.isRegister).length

/-- The number of goroutines started. -/
def started (tr : List Effect) : Nat := (tr.filter Effect.isGo).length

/-- The condition of publish.go 39 and 101, negated: the protocol client is
present and reports connected. -/
def connected (c : client) : Bool :=
  match c.pahoClient with
  | none => false
  | some paho => paho.IsConnected

/-- Whether metrics emission returns no error: the execution state and the
cancellation context are both present (publish.go 139-147). -/
def metricsAvailable (c : client) : Bool := c.vu.State.isSome && c.vu.Context.isSome

/-! ## Outcome kinds -/

/-- The kinds of publish outcome named by the error taxonomy. -/
inductive OutcomeKind where
  | NotConnected
  | TimeoutValueInvalid
  | Timeout
  | ProtocolError
  | Success
  | StateUnavailable
  | HandlerError
  deriving DecidableEq, Repr

/-- The outcome kind of a returned error value (nil is success). -/
def errKind : Option Err → OutcomeKind
  | none => .Success
  | some .ErrClient => .NotConnected
  | some .ErrTimeoutToLong => .TimeoutValueInvalid
  | some .ErrTimeout => .Timeout
  | some .ErrPublish => .ProtocolError
  | some .ErrState => .StateUnavailable
  | some (.other _) => .HandlerError

/-- The outcome kind of the way a call ended: the kind of the error it raised,
or of the error value it returned. -/
def exitKind : Exit → OutcomeKind
  | .returned err => errKind err
  | .raised e => errKind (some e)

/-- The outcome kind of the synchronous path. -/
def syncOutcomeKind (r : SyncResult) : OutcomeKind := exitKind r.exit

/-- The outcome kind a delivered job stands for: the failure the closure was
built for, and for the success closure the result of the metrics emission it
starts with (nil is success, `ErrState` is StateUnavailable). -/
def jobOutcomeKind (c : client) (now : Time) (message : String) : CallbackJob → OutcomeKind
  | .notConnected => .NotConnected
  | .timeout => .Timeout
  | .tokenError _ => .ProtocolError
  | .success => errKind (publishMessageMetric c now (float64.ofInt (len message))).ret

/-- The outcome kind delivered by the asynchronous path: when the call itself
raised or returned an error, the kind of that error; when it returned nil, the
kind of the single job delivered; `none` when the call returns nil and the
goroutine delivers no job or several. -/
def asyncOutcomeKind (c : client) (now : Time) (message : String) (r : PublishResult) :
    Option OutcomeKind :=
  match r.exit with
  | .raised e => some (errKind (some e))
  | .returned (some e) => some (errKind (some e))
  | .returned none =>
    match jobs r.background with
    | [job] => some (jobOutcomeKind c now message job)
    | _ => none

/-! ## Concrete collaborators -/

/-- Metric handles with the types `registerMetrics` gives them: counters, and
a gauge for the dates. -/
def sampleMetrics : mqttMetrics :=
  ⟨⟨"mqtt_sent_bytes", .Counter⟩, ⟨"mqtt_received_bytes", .Counter⟩,
   ⟨"mqtt_sent_messages", .Counter⟩, ⟨"mqtt_received_messages", .Counter⟩,
   ⟨"mqtt_sent_dates", .Gauge⟩, ⟨⟨[("scenario", "default")]⟩⟩⟩

/-- A virtual user whose state and context are present, the context live. -/
def liveVU : VU := ⟨some ⟨1⟩, some ⟨fun _ => false⟩⟩

/-- A virtual user whose execution state is missing. -/
def noStateVU : VU := ⟨none, some ⟨fun _ => false⟩⟩

/-- A virtual user whose cancellation context is missing. -/
def noContextVU : VU := ⟨some ⟨1⟩, none⟩

/-- A token of a broker that acknowledges after `ackNanos` nanoseconds: the
wait succeeds exactly for durations of at least that length. -/
def ackToken (ackNanos : Int) (err : Option String) : Token :=
  ⟨fun d => decide (ackNanos ≤ d), err⟩

/-- A protocol client whose broker acknowledges every publish after
`ackNanos` nanoseconds. -/
def brokerClient (isConnected : Bool) (ackNanos : Int) (err : Option String) : PahoClient :=
  ⟨isConnected, fun _ _ _ _ => ackToken ackNanos err⟩

/-- A client without protocol client. -/
def absentClient : client := ⟨none, liveVU, sampleMetrics⟩

/-- A client whose protocol client reports disconnected. -/
def disconnectedClient : client := ⟨some (brokerClient false 50000000 none), liveVU, sampleMetrics⟩

/-- A connected client whose broker acknowledges after 50 ms. -/
def connectedClient (vu : VU) (err : Option String) : client :=
  ⟨some (brokerClient true 50000000 err), vu, sampleMetrics⟩

/-- A point in time: 2026-01-01T00:00:00.250Z. -/
def sampleNow : Time := ⟨1767225600, 250000000⟩

/-- A handler that returns no error. -/
def okHandler : Handler := fun _ => none

/-! ## Theorems -/

/-- With no handler, `Publish` is `publishSync` and starts nothing. -/
theorem Publish_sync (c : client) (now : Time) (topic : String) (qos : Int) (message : String)
    (retain : Bool) (timeout : Nat) :
    Publish c now topic qos message retain timeout none none =
      ⟨(publishSync c now topic qos message retain timeout).exit,
       (publishSync c now topic qos message retain timeout).trace, []⟩ := by
  simp [Publish]

/-- Metrics emission only appends samples: it raises nothing, hands over no
job, calls no handler and performs no network operation. -/
theorem publishMessageMetric_only_samples (c : client) (now : Time) (msgLen : float64) :
    thrown (publishMessageMetric c now msgLen).trace = [] ∧
    jobs (publishMessageMetric c now msgLen).trace = [] ∧
    successCalls (publishMessageMetric c now msgLen).trace = [] ∧
    failureCalls (publishMessageMetric c now msgLen).trace = [] ∧
    networkOps (publishMessageMetric c now msgLen).trace = [] := by
  unfold publishMessageMetric PushIfNotDone
  split
  · simp [thrown, jobs, successCalls, failureCalls, networkOps]
  · split
    · simp [thrown, jobs, successCalls, failureCalls, networkOps]
    · rename_i ctx _
      cases h0 : ctx.Err 0 <;> cases h1 : ctx.Err 1 <;> cases h2 : ctx.Err 2 <;>
        simp [thrown, jobs, successCalls, failureCalls, networkOps, Effect.asThrow,
          Effect.asJob, Effect.asSuccessCall, Effect.asFailureCall, Effect.isNetwork]

/-- Metrics emission returns `ErrState` exactly when the execution state or
the cancellation context is missing, and nil otherwise. -/
theorem publishMessageMetric_ret (c : client) (now : Time) (msgLen : float64) :
    (publishMessageMetric c now msgLen).ret =
      (if c.vu.State.isSome && c.vu.Context.isSome then none else some Err.ErrState) := by
  unfold publishMessageMetric
  cases c.vu.State <;> cases c.vu.Context <;> simp

/-- The goroutine hands exactly one closure to the callback slot, as its last
effect. -/
theorem publishGoroutine_one_job (c : client) (topic : String) (qos : Int) (message : String)
    (retain : Bool) (tv : Int) :
    ∃ pre job, publishGoroutine c topic qos message retain tv = pre ++ [Effect.callback job] ∧
      jobs pre = [] := by
  unfold publishGoroutine
  split
  · exact ⟨[], _, rfl, rfl⟩
  · split
    · exact ⟨[], _, rfl, rfl⟩
    · dsimp only
      split
      · exact ⟨_, _, rfl, by simp [jobs, Effect.asJob]⟩
      · split
        · exact ⟨_, _, rfl, by simp [jobs, Effect.asJob]⟩
        · exact ⟨_, _, rfl, by simp [jobs, Effect.asJob]⟩

/-- An asynchronous call (some handler supplied) does not take the
synchronous branch of `Publish`. -/
theorem async_branch (success failure : Option Handler)
    (ha : (success.isSome || failure.isSome) = true) :
    (success.isNone && failure.isNone) = false := by
  cases success <;> cases failure <;> simp_all

/-- The run of a failure closure: the failure handler, when supplied, is
called once with the error event of the reason, and the success handler is
never called. -/
theorem runFailure_calls (failure : Option Handler) (reason : String) :
    failureCalls (runFailure failure reason).trace =
      (if failure.isSome then [newErrorEvent reason] else []) ∧
    successCalls (runFailure failure reason).trace = [] := by
  cases failure <;>
    simp [runFailure, failureCalls, successCalls, Effect.asFailureCall, Effect.asSuccessCall]

/-- The run of the success closure: the success handler, when supplied and
when metrics emission returned no error, is called once with the publish
event, and the failure handler is never called. -/
theorem runSuccess_calls (c : client) (now : Time) (topic : String) (message : String)
    (success failure : Option Handler) :
    successCalls (runJob c now topic message success failure CallbackJob.success).trace =
      (if success.isSome && (c.vu.State.isSome && c.vu.Context.isSome)
        then [newPublishEvent topic] else []) ∧
    failureCalls (runJob c now topic message success failure CallbackJob.success).trace = [] := by
  have hm := publishMessageMetric_only_samples c now (float64.ofInt (len message))
  have hr := publishMessageMetric_ret c now (float64.ofInt (len message))
  unfold successCalls failureCalls at hm
  unfold runJob successCalls failureCalls
  cases hst : c.vu.State.isSome && c.vu.Context.isSome
  · simp only [hst] at hr
    simp [hr, hm.2.2.1, hm.2.2.2.1]
  · simp only [hst] at hr
    cases success <;>
      simp [hr, hm.2.2.1, hm.2.2.2.1, Effect.asSuccessCall, Effect.asFailureCall]

/-! ### C1: publishing while not connected -/

/-- C1, counterexample: an asynchronous publish (failure handler supplied) with
the protocol client absent and the timeout 2^63 does not end in NotConnected:
the call raises `ErrTimeoutToLong`, registers no callback slot and delivers no
job at all. -/
theorem C1_counterexample :
    connected absentClient = false ∧
    (Publish absentClient sampleNow "sensors/temp" 0 "23.5" false (2 ^ 63)
        none (some okHandler)).exit = Exit.raised Err.ErrTimeoutToLong ∧
    thrown (Publish absentClient sampleNow "sensors/temp" 0 "23.5" false (2 ^ 63)
        none (some okHandler)).trace = [Err.ErrTimeoutToLong] ∧
    registered (Publish absentClient sampleNow "sensors/temp" 0 "23.5" false (2 ^ 63)
        none (some okHandler)).trace = 0 ∧
    jobs (Publish absentClient sampleNow "sensors/temp" 0 "23.5" false (2 ^ 63)
        none (some okHandler)).background = [] := by
  decide

/-- C1, amended: while the protocol client is absent or reports disconnected,
no publish reaches the transport on any path and for any timeout; the
synchronous path raises `ErrClient` (and nothing else); the asynchronous path,
when the guard accepts the timeout, returns nil and delivers exactly the
not-connected job, whose run passes the event with reason
"publish not connected" to the failure handler (when supplied) and never calls
the success handler; when the guard rejects the timeout the asynchronous call
raises `ErrTimeoutToLong` and delivers no job. -/
theorem C1_not_connected (c : client) (now : Time) (topic : String) (qos : Int)
    (message : String) (retain : Bool) (timeout : Nat) (success failure : Option Handler)
    (hc : connected c = false) :
    publishCalls (publishSync c now topic qos message retain timeout).trace = 0 ∧
    publishCalls (Publish c now topic qos message retain timeout success failure).trace = 0 ∧
    publishCalls (Publish c now topic qos message retain timeout success failure).background = 0 ∧
    (publishSync c now topic qos message retain timeout).exit = Exit.raised Err.ErrClient ∧
    thrown (publishSync c now topic qos message retain timeout).trace = [Err.ErrClient] ∧
    ((success.isSome || failure.isSome) = true → (safeUintToInt64 timeout).isSome = true →
      (Publish c now topic qos message retain timeout success failure).exit =
        Exit.returned none ∧
      thrown (Publish c now topic qos message retain timeout success failure).trace = [] ∧
      jobs (Publish c now topic qos message retain timeout success failure).background =
        [CallbackJob.notConnected]) ∧
    ((success.isSome || failure.isSome) = true → safeUintToInt64 timeout = none →
      (Publish c now topic qos message retain timeout success failure).exit =
        Exit.raised Err.ErrTimeoutToLong ∧
      thrown (Publish c now topic qos message retain timeout success failure).trace =
        [Err.ErrTimeoutToLong] ∧
      jobs (Publish c now topic qos message retain timeout success failure).background = []) ∧
    failureCalls (runJob c now topic message success failure CallbackJob.notConnected).trace =
      (if failure.isSome then [newErrorEvent "publish not connected"] else []) ∧
    successCalls (runJob c now topic message success failure CallbackJob.notConnected).trace = [] ∧
    (newErrorEvent "publish not connected").reason = some "publish not connected" := by
  have hsync : publishSync c now topic qos message retain timeout =
      ⟨Exit.raised Err.ErrClient, [Effect.throw Err.ErrClient]⟩ := by
    unfold connected at hc
    unfold publishSync
    cases hp : c.pahoClient with
    | none => rfl
    | some paho => simp [hp] at hc; simp [hc]
  have hgo : ∀ tv, publishGoroutine c topic qos message retain tv =
      [Effect.callback CallbackJob.notConnected] := by
    intro tv
    unfold connected at hc
    unfold publishGoroutine
    cases hp : c.pahoClient with
    | none => rfl
    | some paho => simp [hp] at hc; simp [hc]
  have hjob := runFailure_calls failure "publish not connected"
  refine ⟨?_, ?_, ?_, ?_, ?_, ?_, ?_, hjob.1, hjob.2, rfl⟩
  · simp [hsync, publishCalls, Effect.isPublish]
  · unfold Publish
    split
    · simp [hsync, publishCalls, Effect.isPublish]
    · cases safeUintToInt64 timeout <;> simp [publishCalls, Effect.isPublish]
  · unfold Publish
    split
    · simp [publishCalls]
    · cases safeUintToInt64 timeout <;> simp [publishCalls, Effect.isPublish, hgo]
  · simp [hsync]
  · simp [hsync, thrown, Effect.asThrow]
  · intro ha hv
    have hn := async_branch success failure ha
    cases hs : safeUintToInt64 timeout with
    | none => simp [hs] at hv
    | some tv => simp [Publish, hn, hs, hgo, jobs, thrown, Effect.asJob, Effect.asThrow]
  · intro ha hv
    have hn := async_branch success failure ha
    simp [Publish, hn, hv, jobs, thrown, Effect.asThrow]

/-- C1, witness: a disconnected client, synchronous and asynchronous call of
the scenario request. -/
theorem C1_not_connected_witness :
    connected disconnectedClient = false ∧
    (publishSync disconnectedClient sampleNow "sensors/temp" 0 "23.5" false 1000).exit =
      Exit.raised Err.ErrClient ∧
    jobs (Publish disconnectedClient sampleNow "sensors/temp" 0 "23.5" false 1000
      none (some okHandler)).background = [CallbackJob.notConnected] ∧
    failureCalls (runJob disconnectedClient sampleNow "sensors/temp" "23.5" none (some okHandler)
      CallbackJob.notConnected).trace = [Event.error "publish not connected"] :=
  have h := C1_not_connected disconnectedClient sampleNow "sensors/temp" 0 "23.5" false 1000
    none (some okHandler) rfl
  ⟨rfl, h.2.2.2.1, (h.2.2.2.2.2.1 rfl rfl).2.2, h.2.2.2.2.2.2.2.1⟩

/-! ### C2: the timeout guard -/

/-- C2, counterexample: a synchronous publish with the protocol client absent
and the timeout 2^63 (rejected by the guard) does not fail with
`ErrTimeoutToLong`: the connection check comes first and the call raises
`ErrClient`, the only error raised. -/
theorem C2_counterexample :
    safeUintToInt64 (2 ^ 63) = none ∧
    (publishSync absentClient sampleNow "sensors/temp" 0 "23.5" false (2 ^ 63)).exit =
      Exit.raised Err.ErrClient ∧
    (publishSync absentClient sampleNow "sensors/temp" 0 "23.5" false (2 ^ 63)).exit ≠
      Exit.raised Err.ErrTimeoutToLong ∧
    thrown (publishSync absentClient sampleNow "sensors/temp" 0 "23.5" false (2 ^ 63)).trace =
      [Err.ErrClient] := by
  decide

/-- C2, amended: for every timeout the guard rejects, no network operation
(transport publish, token wait) is performed on any path and in any client
state; the asynchronous call raises `ErrTimeoutToLong` in every client state,
registers no callback slot and starts no goroutine; the synchronous call
raises `ErrTimeoutToLong` when the client is connected, and `ErrClient` when it
is absent or disconnected. -/
theorem C2_timeout_rejected (c : client) (now : Time) (topic : String) (qos : Int)
    (message : String) (retain : Bool) (timeout : Nat) (success failure : Option Handler)
    (hv : safeUintToInt64 timeout = none) :
    networkOps (publishSync c now topic qos message retain timeout).trace = [] ∧
    networkOps (Publish c now topic qos message retain timeout success failure).trace = [] ∧
    networkOps (Publish c now topic qos message retain timeout success failure).background = [] ∧
    ((success.isSome || failure.isSome) = true →
      (Publish c now topic qos message retain timeout success failure).exit =
        Exit.raised Err.ErrTimeoutToLong ∧
      thrown (Publish c now topic qos message retain timeout success failure).trace =
        [Err.ErrTimeoutToLong] ∧
      registered (Publish c now topic qos message retain timeout success failure).trace = 0 ∧
      started (Publish c now topic qos message retain timeout success failure).trace = 0 ∧
      (Publish c now topic qos message retain timeout success failure).background = []) ∧
    (connected c = true →
      (publishSync c now topic qos message retain timeout).exit =
        Exit.raised Err.ErrTimeoutToLong ∧
      thrown (publishSync c now topic qos message retain timeout).trace =
        [Err.ErrTimeoutToLong]) ∧
    (connected c = false →
      (publishSync c now topic qos message retain timeout).exit = Exit.raised Err.ErrClient ∧
      thrown (publishSync c now topic qos message retain timeout).trace = [Err.ErrClient]) := by
  have hsync : publishSync c now topic qos message retain timeout =
      (if connected c then
          ⟨Exit.raised Err.ErrTimeoutToLong, [Effect.throw Err.ErrTimeoutToLong]⟩
        else ⟨Exit.raised Err.ErrClient, [Effect.throw Err.ErrClient]⟩) := by
    unfold connected publishSync
    cases hp : c.pahoClient with
    | none => rfl
    | some paho => cases hi : paho.IsConnected <;> simp [hv, hi]
  refine ⟨?_, ?_, ?_, ?_, ?_, ?_⟩
  · rw [hsync]; split <;> simp [networkOps, Effect.isNetwork]
  · unfold Publish
    split
    · rw [hsync]; split <;> simp [networkOps, Effect.isNetwork]
    · simp [hv, networkOps, Effect.isNetwork]
  · unfold Publish
    split
    · simp [networkOps]
    · simp [hv, networkOps]
  · intro ha
    have hn := async_branch success failure ha
    simp [Publish, hn, hv, thrown, Effect.asThrow, registered, started, Effect.isRegister,
      Effect.isGo]
  · intro hc
    simp [hsync, hc, thrown, Effect.asThrow]
  · intro hc
    simp [hsync, hc, thrown, Effect.asThrow]

/-- C2, witness: timeout 2^63 on a connected client, synchronous and
asynchronous. -/
theorem C2_timeout_rejected_witness :
    safeUintToInt64 (2 ^ 63) = none ∧
    (publishSync (connectedClient liveVU none) sampleNow "sensors/temp" 0 "23.5" false
      (2 ^ 63)).exit = Exit.raised Err.ErrTimeoutToLong ∧
    (Publish (connectedClient liveVU none) sampleNow "sensors/temp" 0 "23.5" false (2 ^ 63)
      (some okHandler) none).exit = Exit.raised Err.ErrTimeoutToLong ∧
    (Publish (connectedClient liveVU none) sampleNow "sensors/temp" 0 "23.5" false (2 ^ 63)
      (some okHandler) none).background = [] :=
  have h := C2_timeout_rejected (connectedClient liveVU none) sampleNow "sensors/temp" 0 "23.5"
    false (2 ^ 63) (some okHandler) none (by decide)
  ⟨by decide, (h.2.2.2.2.1 rfl).1, (h.2.2.2.1 rfl).1, (h.2.2.2.1 rfl).2.2.2.2⟩

/-! ### C3: which handler a delivered job invokes -/

/-- C3, counterexample: an asynchronous publish with only a success handler
supplied whose wait times out (timeout 1 ms, acknowledgment after 50 ms)
delivers the timeout job, and running that job invokes no handler at all. -/
theorem C3_counterexample :
    jobs (Publish (connectedClient liveVU none) sampleNow "sensors/temp" 0 "23.5" false 1
      (some okHandler) none).background = [CallbackJob.timeout] ∧
    successCalls (runJob (connectedClient liveVU none) sampleNow "sensors/temp" "23.5"
      (some okHandler) none CallbackJob.timeout).trace = [] ∧
    failureCalls (runJob (connectedClient liveVU none) sampleNow "sensors/temp" "23.5"
      (some okHandler) none CallbackJob.timeout).trace = [] := by
  decide

/-- C3, amended: for every asynchronous publish whose timeout the guard
accepts, the outcome decides the single job delivered (client absent or
disconnected: the not-connected job; connected and the wait returns false:
the timeout job; the wait returns true and the token reports an error: the
token-error job with its message; the wait returns true and no error: the
success job), and running the delivered job invokes at most one handler, at
most once, never both: for each of the three failure outcomes the failure
handler exactly once, with the error event of that outcome, when it was
supplied (no handler otherwise) and never the success handler; for the success
outcome the success handler exactly once, with the publish event, when it was
supplied and metrics emission returned no error (no handler otherwise) and
never the failure handler. -/
theorem C3_one_handler (c : client) (now : Time) (topic : String) (qos : Int)
    (message : String) (retain : Bool) (timeout : Nat) (success failure : Option Handler)
    (ha : (success.isSome || failure.isSome) = true)
    (hv : (safeUintToInt64 timeout).isSome = true) :
    (∃ job, jobs (Publish c now topic qos message retain timeout success failure).background
        = [job] ∧
      (successCalls (runJob c now topic message success failure job).trace).length +
        (failureCalls (runJob c now topic message success failure job).trace).length ≤ 1 ∧
      (job ≠ CallbackJob.success →
        successCalls (runJob c now topic message success failure job).trace = [] ∧
        (failureCalls (runJob c now topic message success failure job).trace).length =
          (if failure.isSome then 1 else 0)) ∧
      (job = CallbackJob.success →
        failureCalls (runJob c now topic message success failure job).trace = [] ∧
        (successCalls (runJob c now topic message success failure job).trace).length =
          (if success.isSome && metricsAvailable c then 1 else 0))) ∧
    (connected c = false →
      jobs (Publish c now topic qos message retain timeout success failure).background =
        [CallbackJob.notConnected]) ∧
    (∀ paho tv, c.pahoClient = some paho → paho.IsConnected = true →
      safeUintToInt64 timeout = some tv →
      ((paho.Publish topic (byte qos) retain message).WaitTimeout (durationMul tv Millisecond)
          = false →
        jobs (Publish c now topic qos message retain timeout success failure).background =
          [CallbackJob.timeout]) ∧
      (∀ msg, (paho.Publish topic (byte qos) retain message).WaitTimeout
          (durationMul tv Millisecond) = true →
        (paho.Publish topic (byte qos) retain message).Error = some msg →
        jobs (Publish c now topic qos message retain timeout success failure).background =
          [CallbackJob.tokenError msg]) ∧
      ((paho.Publish topic (byte qos) retain message).WaitTimeout (durationMul tv Millisecond)
          = true →
        (paho.Publish topic (byte qos) retain message).Error = none →
        jobs (Publish c now topic qos message retain timeout success failure).background =
          [CallbackJob.success])) ∧
    (failureCalls (runJob c now topic message success failure CallbackJob.notConnected).trace =
        (if failure.isSome then [newErrorEvent "publish not connected"] else []) ∧
      successCalls (runJob c now topic message success failure CallbackJob.notConnected).trace
        = []) ∧
    (failureCalls (runJob c now topic message success failure CallbackJob.timeout).trace =
        (if failure.isSome then [newErrorEvent "publish timeout"] else []) ∧
      successCalls (runJob c now topic message success failure CallbackJob.timeout).trace
        = []) ∧
    (∀ msg,
      failureCalls (runJob c now topic message success failure
          (CallbackJob.tokenError msg)).trace =
        (if failure.isSome then [newErrorEvent msg] else []) ∧
      successCalls (runJob c now topic message success failure
          (CallbackJob.tokenError msg)).trace = []) ∧
    (successCalls (runJob c now topic message success failure CallbackJob.success).trace =
        (if success.isSome && metricsAvailable c then [newPublishEvent topic] else []) ∧
      failureCalls (runJob c now topic message success failure CallbackJob.success).trace
        = []) := by
  have hn := async_branch success failure ha
  obtain ⟨tv, hs⟩ := Option.isSome_iff_exists.mp hv
  have hfail : ∀ reason, failureCalls (runFailure failure reason).trace =
        (if failure.isSome then [newErrorEvent reason] else []) ∧
      successCalls (runFailure failure reason).trace = [] :=
    fun reason => runFailure_calls failure reason
  have hsucc := runSuccess_calls c now topic message success failure
  have hlen : ∀ reason, (failureCalls (runFailure failure reason).trace).length =
      (if failure.isSome then 1 else 0) := by
    intro reason
    rw [(hfail reason).1]
    split <;> rfl
  have hslen : (successCalls (runJob c now topic message success failure
      CallbackJob.success).trace).length =
      (if success.isSome && metricsAvailable c then 1 else 0) := by
    rw [hsucc.1]
    unfold metricsAvailable
    split <;> rfl
  refine ⟨?_, ?_, ?_, hfail _, hfail _, fun msg => hfail msg, hsucc⟩
  · obtain ⟨pre, job, hg, hpre⟩ := publishGoroutine_one_job c topic qos message retain tv
    have hjob : jobs (Publish c now topic qos message retain timeout success
        failure).background = [job] := by
      simp only [Publish, hn, hs]
      simp [hg, jobs, Effect.asJob] at hpre ⊢
      exact hpre
    refine ⟨job, hjob, ?_⟩
    cases job with
    | notConnected =>
      simp only [runJob]
      refine ⟨?_, fun _ => ⟨(hfail _).2, hlen _⟩, fun hj => by cases hj⟩
      rw [(hfail _).2, hlen]; split <;> simp
    | timeout =>
      simp only [runJob]
      refine ⟨?_, fun _ => ⟨(hfail _).2, hlen _⟩, fun hj => by cases hj⟩
      rw [(hfail _).2, hlen]; split <;> simp
    | tokenError msg =>
      simp only [runJob]
      refine ⟨?_, fun _ => ⟨(hfail _).2, hlen _⟩, fun hj => by cases hj⟩
      rw [(hfail _).2, hlen]; split <;> simp
    | success =>
      refine ⟨?_, fun hj => absurd rfl hj, fun _ => ⟨hsucc.2, hslen⟩⟩
      rw [hsucc.2, hslen]; split <;> simp
  · intro hc
    unfold connected at hc
    simp only [Publish, hn, hs]
    unfold publishGoroutine
    cases hp : c.pahoClient with
    | none => rfl
    | some paho => simp [hp] at hc; simp [hc, jobs, Effect.asJob]
  · intro paho tv2 hp hc hs2
    have htv : tv2 = tv := by rw [hs] at hs2; exact (Option.some.inj hs2).symm
    subst htv
    refine ⟨?_, ?_, ?_⟩
    · intro hw
      simp [Publish, hn, hs, publishGoroutine, hp, hc, hw, jobs, Effect.asJob]
    · intro msg hw he
      simp [Publish, hn, hs, publishGoroutine, hp, hc, hw, he, jobs, Effect.asJob]
    · intro hw he
      simp [Publish, hn, hs, publishGoroutine, hp, hc, hw, he, jobs, Effect.asJob]

/-- C3, witness: the scenario request with both handlers, acknowledged within
the timeout: the success job is delivered and its run calls the success
handler once, with the publish event, and the failure handler never. -/
theorem C3_one_handler_witness :
    ((some okHandler).isSome || (some okHandler).isSome) = true ∧
    (safeUintToInt64 1000).isSome = true ∧
    jobs (Publish (connectedClient liveVU none) sampleNow "sensors/temp" 0 "23.5" false
      1000 (some okHandler) (some okHandler)).background = [CallbackJob.success] ∧
    successCalls (runJob (connectedClient liveVU none) sampleNow "sensors/temp" "23.5"
      (some okHandler) (some okHandler) CallbackJob.success).trace =
      [newPublishEvent "sensors/temp"] ∧
    failureCalls (runJob (connectedClient liveVU none) sampleNow "sensors/temp" "23.5"
      (some okHandler) (some okHandler) CallbackJob.success).trace = [] :=
  have h := C3_one_handler (connectedClient liveVU none) sampleNow "sensors/temp" 0 "23.5" false
    1000 (some okHandler) (some okHandler) rfl (by decide)
  ⟨rfl, by decide,
    (h.2.2.1 (brokerClient true 50000000 none) 1000 rfl rfl (by decide)).2.2
      (by decide) rfl,
    h.2.2.2.2.2.2.1, h.2.2.2.2.2.2.2⟩

/-! ### C4: one slot, one job -/

/-- C5, counterexample: a connected client, a valid timeout (1000 ms), a wait
that completes (acknowledgment after 50 ms) and no token error, but the
execution state is missing at emission time: the synchronous publish returns
`ErrState`, not nil, and appends no sample. -/
theorem C5_counterexample :
    connected (connectedClient noStateVU none) = true ∧
    safeUintToInt64 1000 = some 1000 ∧
    (ackToken 50000000 none).WaitTimeout (durationMul 1000 Millisecond) = true ∧
    (publishSync (connectedClient noStateVU none) sampleNow "sensors/temp" 0 "23.5" false
      1000).exit = Exit.returned (some Err.ErrState) ∧
    samples (publishSync (connectedClient noStateVU none) sampleNow "sensors/temp" 0 "23.5" false
      1000).trace = [] := by
  decide

/-- C5, amended: for a connected client and a timeout the guard accepts, a
synchronous publish whose wait completes with no token error, made while the
execution state and the cancellation context are present and the context is
not done, returns nil, raises nothing and appends exactly three samples, in
this order: sent-messages with value 1, sent-bytes with the payload's byte
length, sent-dates with the emission time in Unix milliseconds, all three with
the same timestamp and the client's tag set. -/
theorem C5_three_samples (c : client) (now : Time) (topic : String) (qos : Int)
    (message : String) (retain : Bool) (timeout : Nat) (paho : PahoClient) (tv : Int)
    (st : State) (ctx : Context)
    (hp : c.pahoClient = some paho) (hc : paho.IsConnected = true)
    (hv : safeUintToInt64 timeout = some tv)
    (hw : (paho.Publish topic (byte qos) retain message).WaitTimeout
      (durationMul tv Millisecond) = true)
    (he : (paho.Publish topic (byte qos) retain message).Error = none)
    (hst : c.vu.State = some st) (hctx : c.vu.Context = some ctx)
    (hlive : ∀ k, ctx.Err k = false) :
    (publishSync c now topic qos message retain timeout).exit = Exit.returned none ∧
    thrown (publishSync c now topic qos message retain timeout).trace = [] ∧
    samples (publishSync c now topic qos message retain timeout).trace =
      [ ⟨⟨c.metrics.SentMessages, c.metrics.TagsAndMeta.Tags⟩, now, float64.ofInt 1⟩,
        ⟨⟨c.metrics.SentBytes, c.metrics.TagsAndMeta.Tags⟩, now,
          float64.ofInt (message.utf8ByteSize : Int)⟩,
        ⟨⟨c.metrics.SentDates, c.metrics.TagsAndMeta.Tags⟩, now,
          float64.ofInt now.UnixMilli⟩ ] := by
  simp [publishSync, hp, hc, hv, hw, he, publishMessageMetric, hst, hctx, PushIfNotDone, hlive,
    thrown, samples, Effect.asThrow, Effect.asSample, len]

/-- C5, witness: the scenario request (payload "23.5", timeout 1000 ms,
acknowledgment after 50 ms): count 1, bytes 4, date 1767225600250. -/
theorem C5_three_samples_witness :
    (publishSync (connectedClient liveVU none) sampleNow "sensors/temp" 0 "23.5" false
      1000).exit = Exit.returned none ∧
    samples (publishSync (connectedClient liveVU none) sampleNow "sensors/temp" 0 "23.5" false
      1000).trace =
      [ ⟨⟨sampleMetrics.SentMessages, sampleMetrics.TagsAndMeta.Tags⟩, sampleNow,
          float64.ofInt 1⟩,
        ⟨⟨sampleMetrics.SentBytes, sampleMetrics.TagsAndMeta.Tags⟩, sampleNow,
          float64.ofInt 4⟩,
        ⟨⟨sampleMetrics.SentDates, sampleMetrics.TagsAndMeta.Tags⟩, sampleNow,
          float64.ofInt 1767225600250⟩ ] :=
  have h := C5_three_samples (connectedClient liveVU none) sampleNow "sensors/temp" 0 "23.5"
    false 1000 (brokerClient true 50000000 none) 1000 ⟨1⟩ ⟨fun _ => false⟩
    rfl rfl (by decide) (by decide) rfl rfl rfl (fun _ => rfl)
  ⟨h.1, h.2.2⟩

/-! ### C6: the duration passed to the token wait -/

/-- Up to 9223372036854 ms the product with `time.Millisecond` is exact. -/
theorem durationMul_exact (tv : Int) (h0 : 0 ≤ tv) (h1 : tv ≤ 9223372036854) :
    durationMul tv Millisecond = tv * 1000000 := by
  unfold durationMul wrapInt64 Millisecond
  norm_num
  omega

/-- Above 9223372036854 ms every value the guard accepts wraps: the duration
passed to the wait differs from the requested number of milliseconds. -/
theorem durationMul_wraps (tv : Int) (h0 : 9223372036854 < tv) :
    durationMul tv Millisecond ≠ tv * 1000000 := by
  unfold durationMul wrapInt64 Millisecond
  norm_num
  omega

/-- C6, failing input: the timeout 9223372036855 ms is accepted by the guard
although its product with 1000000 exceeds the largest `int64`; on a connected
client the duration passed to the token wait is the wrapped, negative value
-9223372036854551616 ns, and a publish the broker acknowledges after 50 ms is
ends with `ErrTimeout` raised. -/
theorem C6_duration_wraps :
    safeUintToInt64 9223372036855 = some 9223372036855 ∧
    maxInt64 < 9223372036855 * 1000000 ∧
    waits (publishSync (connectedClient liveVU none) sampleNow "sensors/temp" 0 "23.5" false
      9223372036855).trace = [-9223372036854551616] ∧
    (publishSync (connectedClient liveVU none) sampleNow "sensors/temp" 0 "23.5" false
      9223372036855).exit = Exit.raised Err.ErrTimeout ∧
    thrown (publishSync (connectedClient liveVU none) sampleNow "sensors/temp" 0 "23.5" false
      9223372036855).trace = [Err.ErrTimeout] ∧
    jobs (Publish (connectedClient liveVU none) sampleNow "sensors/temp" 0 "23.5" false
      9223372036855 (some okHandler) (some okHandler)).background = [CallbackJob.timeout] ∧
    waits (Publish (connectedClient liveVU none) sampleNow "sensors/temp" 0 "23.5" false
      9223372036855 (some okHandler) (some okHandler)).background = [-9223372036854551616] := by
  decide

/-! ### C7: timeout and token error -/

/-- C7: for a connected client and a timeout the guard accepts, with `d` the
duration passed to the wait: when the wait returns false the synchronous
publish raises `ErrTimeout` (and nothing else) whatever the token's error state and
appends no sample; when it returns true and the token reports an error the
call raises `ErrPublish` (and nothing else) and no sample is appended; a
sample is appended only when the wait returned true and the token has no
error.  The asynchronous path delivers for the same two failures the timeout
job and the token-error job, whose runs pass to the failure handler (when
supplied) the events with reasons "publish timeout" and the token error's
message, and never call the success handler. -/
theorem C7_failure_classification (c : client) (now : Time) (topic : String) (qos : Int)
    (message : String) (retain : Bool) (timeout : Nat) (success failure : Option Handler)
    (paho : PahoClient) (tv : Int)
    (hp : c.pahoClient = some paho) (hc : paho.IsConnected = true)
    (hv : safeUintToInt64 timeout = some tv) :
    ((paho.Publish topic (byte qos) retain message).WaitTimeout (durationMul tv Millisecond)
        = false →
      (publishSync c now topic qos message retain timeout).exit = Exit.raised Err.ErrTimeout ∧
      thrown (publishSync c now topic qos message retain timeout).trace = [Err.ErrTimeout] ∧
      samples (publishSync c now topic qos message retain timeout).trace = []) ∧
    (∀ msg, (paho.Publish topic (byte qos) retain message).WaitTimeout
        (durationMul tv Millisecond) = true →
      (paho.Publish topic (byte qos) retain message).Error = some msg →
      (publishSync c now topic qos message retain timeout).exit = Exit.raised Err.ErrPublish ∧
      thrown (publishSync c now topic qos message retain timeout).trace = [Err.ErrPublish] ∧
      samples (publishSync c now topic qos message retain timeout).trace = []) ∧
    (samples (publishSync c now topic qos message retain timeout).trace ≠ [] →
      (paho.Publish topic (byte qos) retain message).WaitTimeout (durationMul tv Millisecond)
        = true ∧
      (paho.Publish topic (byte qos) retain message).Error = none) ∧
    ((success.isSome || failure.isSome) = true →
      (paho.Publish topic (byte qos) retain message).WaitTimeout (durationMul tv Millisecond)
        = false →
      jobs (Publish c now topic qos message retain timeout success failure).background =
        [CallbackJob.timeout]) ∧
    (∀ msg, (success.isSome || failure.isSome) = true →
      (paho.Publish topic (byte qos) retain message).WaitTimeout (durationMul tv Millisecond)
        = true →
      (paho.Publish topic (byte qos) retain message).Error = some msg →
      jobs (Publish c now topic qos message retain timeout success failure).background =
        [CallbackJob.tokenError msg]) ∧
    failureCalls (runJob c now topic message success failure CallbackJob.timeout).trace =
      (if failure.isSome then [newErrorEvent "publish timeout"] else []) ∧
    successCalls (runJob c now topic message success failure CallbackJob.timeout).trace = [] ∧
    (newErrorEvent "publish timeout").reason = some "publish timeout" ∧
    (∀ msg,
      failureCalls (runJob c now topic message success failure
        (CallbackJob.tokenError msg)).trace =
        (if failure.isSome then [newErrorEvent msg] else []) ∧
      successCalls (runJob c now topic message success failure
        (CallbackJob.tokenError msg)).trace = [] ∧
      (newErrorEvent msg).reason = some msg) := by
  have hjob : ∀ reason, failureCalls (runFailure failure reason).trace =
        (if failure.isSome then [newErrorEvent reason] else []) ∧
      successCalls (runFailure failure reason).trace = [] :=
    fun reason => runFailure_calls failure reason
  refine ⟨?_, ?_, ?_, ?_, ?_, (hjob _).1, (hjob _).2, rfl, fun msg => ⟨(hjob _).1, (hjob _).2, rfl⟩⟩
  · intro hw
    simp [publishSync, hp, hc, hv, hw, thrown, samples, Effect.asThrow, Effect.asSample]
  · intro msg hw he
    simp [publishSync, hp, hc, hv, hw, he, thrown, samples, Effect.asThrow, Effect.asSample]
  · intro hs
    cases hw : (paho.Publish topic (byte qos) retain message).WaitTimeout
        (durationMul tv Millisecond)
    · simp [publishSync, hp, hc, hv, hw, samples, Effect.asSample] at hs
    · cases he : (paho.Publish topic (byte qos) retain message).Error with
      | none => exact ⟨rfl, rfl⟩
      | some msg =>
        simp [publishSync, hp, hc, hv, hw, he, samples, Effect.asSample] at hs
  · intro ha hw
    simp [Publish, async_branch success failure ha, hv, publishGoroutine, hp, hc, hw, jobs,
      Effect.asJob]
  · intro msg ha hw he
    simp [Publish, async_branch success failure ha, hv, publishGoroutine, hp, hc, hw, he, jobs,
      Effect.asJob]

/-- C7, witness: timeout 1 ms with an acknowledgment after 50 ms is
`ErrTimeout` in the synchronous path and the timeout job in the asynchronous
path. -/
theorem C7_failure_classification_witness :
    (connectedClient liveVU none).pahoClient = some (brokerClient true 50000000 none) ∧
    (brokerClient true 50000000 none).IsConnected = true ∧
    safeUintToInt64 1 = some 1 ∧
    (publishSync (connectedClient liveVU none) sampleNow "sensors/temp" 0 "23.5" false 1).exit =
      Exit.raised Err.ErrTimeout ∧
    jobs (Publish (connectedClient liveVU none) sampleNow "sensors/temp" 0 "23.5" false 1
      none (some okHandler)).background = [CallbackJob.timeout] ∧
    failureCalls (runJob (connectedClient liveVU none) sampleNow "sensors/temp" "23.5"
      none (some okHandler) CallbackJob.timeout).trace = [Event.error "publish timeout"] :=
  have h := C7_failure_classification (connectedClient liveVU none) sampleNow "sensors/temp" 0
    "23.5" false 1 none (some okHandler) (brokerClient true 50000000 none) 1 rfl rfl (by decide)
  ⟨rfl, rfl, by decide, (h.1 (by decide)).1, h.2.2.2.1 rfl (by decide), h.2.2.2.2.2.1⟩

/-! ### C8: missing execution state or context -/

/-- C8, counterexample: the broker completes the publish without error
(connected client, timeout 1000 ms, acknowledgment after 50 ms, no token
error) while the execution state is missing: the synchronous call returns
`ErrState` instead of nil, and the asynchronous call delivers the success job
whose run returns `ErrState` without invoking the success handler. -/
theorem C8_counterexample :
    (publishSync (connectedClient noStateVU none) sampleNow "sensors/temp" 0 "23.5" false
      1000).exit ≠ Exit.returned none ∧
    (publishSync (connectedClient noStateVU none) sampleNow "sensors/temp" 0 "23.5" false
      1000).exit = Exit.returned (some Err.ErrState) ∧
    jobs (Publish (connectedClient noStateVU none) sampleNow "sensors/temp" 0 "23.5" false 1000
      (some okHandler) (some okHandler)).background = [CallbackJob.success] ∧
    (runJob (connectedClient noStateVU none) sampleNow "sensors/temp" "23.5"
      (some okHandler) (some okHandler) CallbackJob.success).ret = some Err.ErrState ∧
    successCalls (runJob (connectedClient noStateVU none) sampleNow "sensors/temp" "23.5"
      (some okHandler) (some okHandler) CallbackJob.success).trace = [] := by
  decide

/-- C8, amended: when the execution state or the cancellation context is
missing at emission time, `publishMessageMetric` returns `ErrState` and emits
no sample, and the error is propagated: a synchronous publish that the broker
completed without error returns `ErrState` (without raising it and without
any sample), and the asynchronous success job returns `ErrState` with an empty
trace: no sample is emitted and no handler is invoked. -/
theorem C8_state_unavailable (c : client) (now : Time) (topic : String) (qos : Int)
    (message : String) (retain : Bool) (timeout : Nat) (success failure : Option Handler)
    (msgLen : float64)
    (hm : c.vu.State = none ∨ c.vu.Context = none) :
    (publishMessageMetric c now msgLen).ret = some Err.ErrState ∧
    (publishMessageMetric c now msgLen).trace = [] ∧
    (∀ paho tv, c.pahoClient = some paho → paho.IsConnected = true →
      safeUintToInt64 timeout = some tv →
      (paho.Publish topic (byte qos) retain message).WaitTimeout (durationMul tv Millisecond)
        = true →
      (paho.Publish topic (byte qos) retain message).Error = none →
      (publishSync c now topic qos message retain timeout).exit =
        Exit.returned (some Err.ErrState) ∧
      thrown (publishSync c now topic qos message retain timeout).trace = [] ∧
      samples (publishSync c now topic qos message retain timeout).trace = []) ∧
    (runJob c now topic message success failure CallbackJob.success).ret = some Err.ErrState ∧
    (runJob c now topic message success failure CallbackJob.success).trace = [] := by
  have hmm : ∀ l, publishMessageMetric c now l = ⟨some Err.ErrState, []⟩ := by
    intro l
    unfold publishMessageMetric
    rcases hm with h | h
    · simp [h]
    · cases hst : c.vu.State <;> simp [h]
  refine ⟨by simp [hmm], by simp [hmm], ?_, by simp [runJob, hmm], by simp [runJob, hmm]⟩
  intro paho tv hp hc hv hw he
  simp [publishSync, hp, hc, hv, hw, he, hmm, thrown, samples, Effect.asThrow, Effect.asSample]

/-- C8, witness: the scenario request on a client whose cancellation context
is missing. -/
theorem C8_state_unavailable_witness :
    ((connectedClient noContextVU none).vu.State = none ∨
      (connectedClient noContextVU none).vu.Context = none) ∧
    (publishMessageMetric (connectedClient noContextVU none) sampleNow (float64.ofInt 4)).ret =
      some Err.ErrState ∧
    (publishSync (connectedClient noContextVU none) sampleNow "sensors/temp" 0 "23.5" false
      1000).exit = Exit.returned (some Err.ErrState) ∧
    (runJob (connectedClient noContextVU none) sampleNow "sensors/temp" "23.5"
      (some okHandler) none CallbackJob.success).trace = [] :=
  have h := C8_state_unavailable (connectedClient noContextVU none) sampleNow "sensors/temp" 0
    "23.5" false 1000 (some okHandler) none (float64.ofInt 4) (Or.inr rfl)
  ⟨Or.inr rfl, h.1, (h.2.2.1 _ 1000 rfl rfl (by decide) (by decide) rfl).1, h.2.2.2.2⟩

/-! ### C9: how synchronous failures are surfaced -/

/-- C10, counterexample: with the protocol client absent and the timeout 2^63
the synchronous path raises `ErrClient` (NotConnected) and the asynchronous
path raises `ErrTimeoutToLong` (TimeoutValueInvalid): the two paths run their
checks in opposite order. -/
theorem C10_counterexample :
    (publishSync absentClient sampleNow "sensors/temp" 0 "23.5" false (2 ^ 63)).exit =
      Exit.raised Err.ErrClient ∧
    (Publish absentClient sampleNow "sensors/temp" 0 "23.5" false (2 ^ 63)
      (some okHandler) (some okHandler)).exit = Exit.raised Err.ErrTimeoutToLong ∧
    syncOutcomeKind (publishSync absentClient sampleNow "sensors/temp" 0 "23.5" false
      (2 ^ 63)) = OutcomeKind.NotConnected ∧
    asyncOutcomeKind absentClient sampleNow "23.5" (Publish absentClient sampleNow
      "sensors/temp" 0 "23.5" false (2 ^ 63) (some okHandler) (some okHandler)) =
      some OutcomeKind.TimeoutValueInvalid ∧
    asyncOutcomeKind absentClient sampleNow "23.5" (Publish absentClient sampleNow
      "sensors/temp" 0 "23.5" false (2 ^ 63) (some okHandler) (some okHandler)) ≠
      some (syncOutcomeKind (publishSync absentClient sampleNow "sensors/temp" 0 "23.5" false
        (2 ^ 63))) := by
  decide

/-- C10, amended: for every client state, timeout, wait result and token
error state, an asynchronous call delivers the outcome kind of the synchronous
path on the same inputs whenever the guard accepts the timeout or the client is
connected; when the guard rejects the timeout the asynchronous outcome is
TimeoutValueInvalid (while the synchronous one is NotConnected for an absent or
disconnected client); and on all inputs the transport publish is called in the
asynchronous path exactly as often as in the synchronous path (at most once),
with the same arguments. -/
theorem C10_paths_agree (c : client) (now : Time) (topic : String) (qos : Int)
    (message : String) (retain : Bool) (timeout : Nat) (success failure : Option Handler)
    (ha : (success.isSome || failure.isSome) = true) :
    asyncOutcomeKind c now message
        (Publish c now topic qos message retain timeout success failure) =
      some (if (safeUintToInt64 timeout).isSome then
          syncOutcomeKind (publishSync c now topic qos message retain timeout)
        else OutcomeKind.TimeoutValueInvalid) ∧
    ((safeUintToInt64 timeout).isSome = true ∨ connected c = true →
      asyncOutcomeKind c now message
          (Publish c now topic qos message retain timeout success failure) =
        some (syncOutcomeKind (publishSync c now topic qos message retain timeout))) ∧
    ((safeUintToInt64 timeout).isSome = false → connected c = false →
      syncOutcomeKind (publishSync c now topic qos message retain timeout) =
        OutcomeKind.NotConnected) ∧
    (Publish c now topic qos message retain timeout success failure).background.filter
        Effect.isPublish =
      (publishSync c now topic qos message retain timeout).trace.filter Effect.isPublish ∧
    publishCalls (Publish c now topic qos message retain timeout success failure).trace = 0 ∧
    publishCalls (Publish c now topic qos message retain timeout success failure).background =
      publishCalls (publishSync c now topic qos message retain timeout).trace ∧
    publishCalls (publishSync c now topic qos message retain timeout).trace ≤ 1 := by
  have hn := async_branch success failure ha
  have hm := (publishMessageMetric_only_samples c now (float64.ofInt (len message))).2.2.2.2
  have hr := publishMessageMetric_ret c now (float64.ofInt (len message))
  have hmp : (publishMessageMetric c now (float64.ofInt (len message))).trace.filter
      Effect.isPublish = [] := by
    rw [List.filter_eq_nil_iff]
    intro e he hpub
    have hnet : Effect.isNetwork e = true := by
      cases e <;> simp_all [Effect.isPublish, Effect.isNetwork]
    have : e ∈ networkOps (publishMessageMetric c now (float64.ofInt (len message))).trace := by
      simp [networkOps, he, hnet]
    rw [hm] at this
    simp at this
  cases hp : c.pahoClient with
  | none =>
    cases hs : safeUintToInt64 timeout <;>
      simp [Publish, hn, hs, publishSync, publishGoroutine, hp, asyncOutcomeKind, syncOutcomeKind,
        errKind, exitKind, jobs, Effect.asJob, jobOutcomeKind, connected, publishCalls, Effect.isPublish]
  | some paho =>
    cases hc : paho.IsConnected
    · cases hs : safeUintToInt64 timeout <;>
        simp [Publish, hn, hs, publishSync, publishGoroutine, hp, hc, asyncOutcomeKind,
          syncOutcomeKind, errKind, exitKind, jobs, Effect.asJob, jobOutcomeKind, connected, publishCalls,
          Effect.isPublish]
    · cases hs : safeUintToInt64 timeout with
      | none =>
        simp [Publish, hn, hs, publishSync, hp, hc, asyncOutcomeKind, syncOutcomeKind,
          errKind, exitKind, connected, publishCalls, Effect.isPublish]
      | some tv =>
        cases hw : (paho.Publish topic (byte qos) retain message).WaitTimeout
            (durationMul tv Millisecond)
        · simp [Publish, hn, hs, publishSync, publishGoroutine, hp, hc, hw, asyncOutcomeKind,
            syncOutcomeKind, errKind, exitKind, jobs, Effect.asJob, jobOutcomeKind, connected,
            publishCalls, Effect.isPublish]
        · cases he : (paho.Publish topic (byte qos) retain message).Error with
          | some msg =>
            simp [Publish, hn, hs, publishSync, publishGoroutine, hp, hc, hw, he,
              asyncOutcomeKind, syncOutcomeKind, errKind, exitKind, jobs, Effect.asJob, jobOutcomeKind,
              connected, publishCalls, Effect.isPublish]
          | none =>
            cases hst : c.vu.State.isSome && c.vu.Context.isSome <;>
              simp only [hst] at hr <;>
              simp [Publish, hn, hs, publishSync, publishGoroutine, hp, hc, hw, he,
                asyncOutcomeKind, syncOutcomeKind, errKind, exitKind, jobs, Effect.asJob, jobOutcomeKind,
                connected, publishCalls, Effect.isPublish, hr, hmp]

/-- C10, witness: the timeout scenario (1 ms, acknowledgment after 50 ms) is
Timeout in both paths, and each path calls the transport publish once. -/
theorem C10_paths_agree_witness :
    ((some okHandler).isSome || (none : Option Handler).isSome) = true ∧
    asyncOutcomeKind (connectedClient liveVU none) sampleNow "23.5"
      (Publish (connectedClient liveVU none) sampleNow "sensors/temp" 0 "23.5" false 1
        (some okHandler) none) = some OutcomeKind.Timeout ∧
    syncOutcomeKind (publishSync (connectedClient liveVU none) sampleNow "sensors/temp" 0 "23.5"
      false 1) = OutcomeKind.Timeout ∧
    publishCalls (Publish (connectedClient liveVU none) sampleNow "sensors/temp" 0 "23.5" false 1
      (some okHandler) none).background = 1 :=
  have h := C10_paths_agree (connectedClient liveVU none) sampleNow "sensors/temp" 0 "23.5"
    false 1 (some okHandler) none rfl
  ⟨rfl, (h.2.1 (Or.inl (by decide))).trans (by decide), by decide,
    h.2.2.2.2.2.1.trans (by decide)⟩

end Mqtt
